import Mathlib

/-!
Verification of the Ordnance Survey grid-reference formatter
`st_gridref` from `src/profiles/ywt_standard/python/expressions/st_gridref.py`.

The QGIS plumbing (reading the geometry, reprojecting to EPSG:27700 and
taking the centroid) is external; a present geometry is modelled by the
integer coordinates `(int(centroid.x()), int(centroid.y()))` it yields, an
absent or null geometry by `none`.  The source divides and takes remainders
with the float literal `1e5`; for the integer coordinates in range
(|x| < 2^53) those float operations followed by `math.floor` are exact and
are embedded as the flooring integer operations `Int.fdiv` / `Int.fmod`,
which are exactly Python's `//` and `%` semantics.
-/

namespace StGridref

/-- Python `str(x)` for a non-negative integer `x`: its decimal digit string,
most significant digit first, no leading zeros.  The first argument is fuel
bounding the recursion depth; `x + 1` always suffices (the value is
independent of the fuel as long as it exceeds `x`, see `natStrGo_fuel`). -/
def natStrGo : Nat → Nat → List Char
  | 0, _ => []
  | fuel + 1, x =>
    if x < 10 then [Nat.digitChar x]
    else natStrGo fuel (x / 10) ++ [Nat.digitChar (x % 10)]

/-- Python `str(x)` for a non-negative integer `x`. -/
def natStr (x : Nat) : List Char := natStrGo (x + 1) x

/-- Python `s.zfill(k)`: left-pad `s` with '0' characters to length `k`. -/
def zfill (k : Nat) (s : List Char) : List Char :=
  List.replicate (k - s.length) '0' ++ s

/-- Python `s.rstrip('0')`: remove trailing '0' characters. -/
def rstrip0 (s : List Char) : List Char :=
  (s.reverse.dropWhile (fun c => c == '0')).reverse

/-- The whitespace characters removed by Python's `str.strip()`
(' ', '\t', '\n', '\r', '\x0b', '\x0c'). -/
def isPySpace (c : Char) : Bool :=
  c == ' ' || c == '\t' || c == '\n' || c == '\r' || c == '\x0b' || c == '\x0c'

/-- Python `s.strip()`: remove leading and trailing whitespace. -/
def pyStrip (s : List Char) : List Char :=
  ((s.dropWhile isPySpace).reverse.dropWhile isPySpace).reverse

/-- Python `chr(i)` (for the code points reached here, all valid). -/
def chr (i : Int) : Char := Char.ofNat i.toNat

/-- Result of one evaluation of the expression function: an eval error was
signalled on the parent (and `None` returned), `None` was returned silently,
or a string was returned. -/
inductive EvalResult where
  | evalError (msg : List Char)
  | noResult
  | result (s : List Char)
deriving DecidableEq

/-- Lines 73-80 of the source: the numeric letter indices computed from the
100km-grid indices, including the skipped-'I' compensation. -/
def letterIndices (e100k n100k : Int) : Int × Int :=
  let l1 := (19 - n100k) - Int.fmod (19 - n100k) 5 + Int.fdiv (e100k + 10) 5
  let l2 := Int.fmod ((19 - n100k) * 5) 25 + Int.fmod e100k 5
  let l1 := if l1 > 7 then l1 + 1 else l1
  let l2 := if l2 > 7 then l2 + 1 else l2
  (l1, l2)

/-- Line 82 of the source: `chr(ord('A') + l1) + chr(ord('A') + l2)`. -/
def letter_pair (e100k n100k : Int) : List Char :=
  [chr (65 + (letterIndices e100k n100k).1), chr (65 + (letterIndices e100k n100k).2)]

/-- Lines 85 and 92-93 of the source: strip the 100km component
(`math.floor(x % 1e5)`), zero-pad to five digits and keep the first `figs`
characters (`str(x).zfill(5)[:figs]`). -/
def digitGroup (x : Int) (figs : Nat) : List Char :=
  (zfill 5 (natStr (Int.fmod x 100000).toNat)).take figs

/-- Lines 96-107 of the source: the `var_figs` trimming.  Python's
`s[:-nzeros]` for `nzeros > 0` is `s.take (s.length - nzeros)`. -/
def varFigsTrim (e_char n_char : List Char) : List Char × List Char :=
  let e_zeros := e_char.length - (rstrip0 e_char).length
  let n_zeros := n_char.length - (rstrip0 n_char).length
  let nzeros := min e_zeros n_zeros
  if nzeros > 0 then
    (e_char.take (e_char.length - nzeros), n_char.take (n_char.length - nzeros))
  else (e_char, n_char)

/-- Lines 68-115 of the source: the whole formatting computation applied to
the integer centroid coordinates. -/
def formatCore (e n max_figs : Int) (var_figs include_spaces : Bool) : List Char :=
  let e100k := Int.fdiv e 100000
  let n100k := Int.fdiv n 100000
  let lp := letter_pair e100k n100k
  let figs := (Int.fdiv max_figs 2).toNat
  let e_char := digitGroup e figs
  let n_char := digitGroup n figs
  let g := if var_figs then varFigsTrim e_char n_char else (e_char, n_char)
  if include_spaces then pyStrip (lp ++ ' ' :: (g.1 ++ ' ' :: g.2))
  else lp ++ g.1 ++ g.2

/-- The pair of digit groups appearing in the output of `formatCore`:
the two truncated groups, trimmed when `var_figs` is set.  (`formatCore`
is definitionally this followed by the final composition, see
`formatCore_eq_fc`.) -/
def fcGroups (e n max_figs : Int) (var_figs : Bool) : List Char × List Char :=
  let figs := (Int.fdiv max_figs 2).toNat
  let e_char := digitGroup e figs
  let n_char := digitGroup n figs
  if var_figs then varFigsTrim e_char n_char else (e_char, n_char)

/-- The message passed to `parent.setEvalErrorString` on line 45. -/
def errMsg : List Char :=
  String.toList "ERROR: max_figs must be an even number between 0 and 10"

/-- Lines 44-115 of the source, the whole expression function. -/
def st_gridref (geom : Option (Int × Int)) (max_figs : Int)
    (var_figs include_spaces : Bool) : EvalResult :=
  if Int.fmod max_figs 2 ≠ 0 ∨ max_figs < 0 ∨ max_figs > 10 then
    .evalError errMsg
  else
    match geom with
    | none => .noResult
    | some (e, n) => .result (formatCore e n max_figs var_figs include_spaces)

/-- Spec section 7: `max_figs` inside the even-integer range [0,10]. -/
def validFigs (mf : Int) : Prop := mf % 2 = 0 ∧ 0 ≤ mf ∧ mf ≤ 10

/-- The five decimal digits of a value below 100000, most significant first,
as characters: the claim-side description of the zero-padded residual. -/
def digits5 (x : Nat) : List Char :=
  [Nat.digitChar (x / 10000 % 10), Nat.digitChar (x / 1000 % 10),
   Nat.digitChar (x / 100 % 10), Nat.digitChar (x / 10 % 10),
   Nat.digitChar (x % 10)]

/-- The claim-side trailing-zero count of a digit string. -/
def tzCount (s : List Char) : Nat :=
  (s.reverse.takeWhile (fun c => c == '0')).length

/-- An uppercase letter other than 'I', i.e. a character of the class
[A-HJ-Z]. -/
def isGridLetter (c : Char) : Bool := c.isUpper && c != 'I'

/-! ### The decimal string of a bounded value -/

lemma natStrGo_succ (fuel x : Nat) :
    natStrGo (fuel + 1) x =
      if x < 10 then [Nat.digitChar x]
      else natStrGo fuel (x / 10) ++ [Nat.digitChar (x % 10)] := rfl

lemma natStrGo_fuel (x : Nat) : ∀ f₁ f₂ : Nat, x < f₁ → x < f₂ →
    natStrGo f₁ x = natStrGo f₂ x := by
  induction x using Nat.strong_induction_on with
  | _ x ih =>
    intro f₁ f₂ h₁ h₂
    cases f₁ with
    | zero => omega
    | succ g₁ =>
      cases f₂ with
      | zero => omega
      | succ g₂ =>
        rw [natStrGo_succ, natStrGo_succ]
        by_cases h : x < 10
        · simp [h]
        · simp only [h, if_false]
          have hx : x / 10 < x := Nat.div_lt_self (by omega) (by omega)
          rw [ih (x / 10) hx g₁ g₂ (by omega) (by omega)]

lemma natStr_eq_lt {x : Nat} (h : x < 10) : natStr x = [Nat.digitChar x] := by
  rw [natStr, natStrGo_succ, if_pos h]

lemma natStr_eq_ge {x : Nat} (h : 10 ≤ x) :
    natStr x = natStr (x / 10) ++ [Nat.digitChar (x % 10)] := by
  have h' : ¬ x < 10 := by omega
  have hstep : natStr x = natStrGo x (x / 10) ++ [Nat.digitChar (x % 10)] := by
    rw [natStr, natStrGo_succ, if_neg h']
  rw [hstep, natStrGo_fuel (x / 10) x (x / 10 + 1)
    (Nat.div_lt_self (by omega) (by omega)) (Nat.lt_succ_self _)]
  rfl

lemma zfill5_natStr {x : Nat} (h : x < 100000) : zfill 5 (natStr x) = digits5 x := by
  have d0 : Nat.digitChar 0 = '0' := rfl
  by_cases h1 : x < 10
  · rw [natStr_eq_lt h1]
    have e4 : x / 10000 % 10 = 0 := by omega
    have e3 : x / 1000 % 10 = 0 := by omega
    have e2 : x / 100 % 10 = 0 := by omega
    have e1 : x / 10 % 10 = 0 := by omega
    have m0 : x % 10 = x := by omega
    simp [zfill, digits5, e4, e3, e2, e1, m0, d0, List.replicate]
  by_cases h2 : x < 100
  · rw [natStr_eq_ge (by omega), natStr_eq_lt (show x / 10 < 10 by omega)]
    have e4 : x / 10000 % 10 = 0 := by omega
    have e3 : x / 1000 % 10 = 0 := by omega
    have e2 : x / 100 % 10 = 0 := by omega
    have e1 : x / 10 % 10 = x / 10 := by omega
    simp [zfill, digits5, e4, e3, e2, e1, d0, List.replicate]
  by_cases h3 : x < 1000
  · rw [natStr_eq_ge (by omega), natStr_eq_ge (show 10 ≤ x / 10 by omega),
      natStr_eq_lt (show x / 10 / 10 < 10 by omega)]
    have dd2 : x / 10 / 10 = x / 100 := by omega
    have e4 : x / 10000 % 10 = 0 := by omega
    have e3 : x / 1000 % 10 = 0 := by omega
    have e2 : x / 100 % 10 = x / 100 := by omega
    simp [zfill, digits5, dd2, e4, e3, e2, d0, List.replicate]
  by_cases h4 : x < 10000
  · rw [natStr_eq_ge (by omega), natStr_eq_ge (show 10 ≤ x / 10 by omega),
      natStr_eq_ge (show 10 ≤ x / 10 / 10 by omega),
      natStr_eq_lt (show x / 10 / 10 / 10 < 10 by omega)]
    have dd2 : x / 10 / 10 = x / 100 := by omega
    have dd3 : x / 100 / 10 = x / 1000 := by omega
    have e4 : x / 10000 % 10 = 0 := by omega
    have e3 : x / 1000 % 10 = x / 1000 := by omega
    simp [zfill, digits5, dd2, dd3, e4, e3, d0, List.replicate]
  · rw [natStr_eq_ge (by omega), natStr_eq_ge (show 10 ≤ x / 10 by omega),
      natStr_eq_ge (show 10 ≤ x / 10 / 10 by omega),
      natStr_eq_ge (show 10 ≤ x / 10 / 10 / 10 by omega),
      natStr_eq_lt (show x / 10 / 10 / 10 / 10 < 10 by omega)]
    have dd2 : x / 10 / 10 = x / 100 := by omega
    have dd3 : x / 100 / 10 = x / 1000 := by omega
    have dd4 : x / 1000 / 10 = x / 10000 := by omega
    have e4 : x / 10000 % 10 = x / 10000 := by omega
    simp [zfill, digits5, dd2, dd3, dd4, e4, List.replicate]

/-! ### Digit groups -/

lemma fmod_e5_nonneg (x : Int) : 0 ≤ Int.fmod x 100000 :=
  Int.fmod_nonneg' x (by norm_num)

lemma fmod_e5_lt (x : Int) : Int.fmod x 100000 < 100000 :=
  Int.fmod_lt_of_pos x (by norm_num)

lemma digitGroup_eq (x : Int) (figs : Nat) :
    digitGroup x figs = (digits5 (Int.fmod x 100000).toNat).take figs := by
  unfold digitGroup
  rw [zfill5_natStr]
  have h1 := fmod_e5_nonneg x
  have h2 := fmod_e5_lt x
  omega

lemma digitGroup_length (x : Int) {figs : Nat} (h : figs ≤ 5) :
    (digitGroup x figs).length = figs := by
  rw [digitGroup_eq]
  simp [digits5]
  omega

lemma digitGroup_chars {x : Int} {figs : Nat} :
    ∀ c ∈ digitGroup x figs, ∃ d, d < 10 ∧ c = Nat.digitChar d := by
  rw [digitGroup_eq]
  intro c hc
  have hm := List.take_subset figs _ hc
  simp only [digits5, List.mem_cons, List.not_mem_nil, or_false] at hm
  rcases hm with h | h | h | h | h
  · exact ⟨_, by omega, h⟩
  · exact ⟨_, by omega, h⟩
  · exact ⟨_, by omega, h⟩
  · exact ⟨_, by omega, h⟩
  · exact ⟨_, by omega, h⟩

lemma digitChar_props : ∀ d, d < 10 →
    (Nat.digitChar d).isDigit = true ∧ isPySpace (Nat.digitChar d) = false ∧
    ((Nat.digitChar d) == ' ') = false ∧ isGridLetter (Nat.digitChar d) = false := by
  decide

lemma digitGroup_not_space {x : Int} {figs : Nat} :
    ∀ c ∈ digitGroup x figs, isPySpace c = false := by
  intro c hc
  obtain ⟨d, hd, rfl⟩ := digitGroup_chars c hc
  exact (digitChar_props d hd).2.1

lemma digitGroup_isDigit {x : Int} {figs : Nat} :
    ∀ c ∈ digitGroup x figs, c.isDigit = true := by
  intro c hc
  obtain ⟨d, hd, rfl⟩ := digitGroup_chars c hc
  exact (digitChar_props d hd).1

/-! ### Trailing-zero trimming -/

lemma takeWhile_add_dropWhile_length (p : Char → Bool) (l : List Char) :
    (l.takeWhile p).length + (l.dropWhile p).length = l.length := by
  conv_rhs => rw [← List.takeWhile_append_dropWhile (p := p) (l := l)]
  rw [List.length_append]

lemma rstrip0_length (s : List Char) :
    (rstrip0 s).length = s.length - tzCount s := by
  unfold rstrip0 tzCount
  have h := takeWhile_add_dropWhile_length (fun c => c == '0') s.reverse
  simp only [List.length_reverse] at h ⊢
  omega

lemma tzCount_le (s : List Char) : tzCount s ≤ s.length := by
  unfold tzCount
  have h := takeWhile_add_dropWhile_length (fun c => c == '0') s.reverse
  simp only [List.length_reverse] at h
  omega

lemma varFigsTrim_eq (eC nC : List Char) :
    varFigsTrim eC nC =
      (eC.take (eC.length - min (tzCount eC) (tzCount nC)),
       nC.take (nC.length - min (tzCount eC) (tzCount nC))) := by
  unfold varFigsTrim
  rw [rstrip0_length, rstrip0_length]
  have h1 := tzCount_le eC
  have h2 := tzCount_le nC
  have he : eC.length - (eC.length - tzCount eC) = tzCount eC := by omega
  have hn : nC.length - (nC.length - tzCount nC) = tzCount nC := by omega
  rw [he, hn]
  by_cases h : 0 < min (tzCount eC) (tzCount nC)
  · simp [h]
  · have hz : min (tzCount eC) (tzCount nC) = 0 := by omega
    simp [hz]

/-! ### Stripping whitespace -/

lemma dropWhile_append_cons {p : Char → Bool} {y : Char} (xs ys : List Char)
    (hy : p y = false) :
    (xs ++ y :: ys).dropWhile p = xs.dropWhile p ++ y :: ys := by
  induction xs with
  | nil => simp [List.dropWhile_cons, hy]
  | cons a t ih =>
    by_cases ha : p a
    · simp only [List.cons_append, List.dropWhile_cons, ha, if_true, ih]
    · simp [List.dropWhile_cons, ha]

lemma dropWhile_append_left {p : Char → Bool} {xs : List Char} (ys : List Char)
    (h : xs.dropWhile p ≠ []) :
    (xs ++ ys).dropWhile p = xs.dropWhile p ++ ys := by
  rw [List.dropWhile_append]
  simp [List.isEmpty_iff, h]

lemma length_dropWhile_le (p : Char → Bool) (l : List Char) :
    (l.dropWhile p).length ≤ l.length := by
  have h := takeWhile_add_dropWhile_length p l
  omega

lemma pyStrip_shape (lp : List Char) {E N : List Char} (hE : E ≠ []) (hN : N ≠ [])
    (hEc : ∀ c ∈ E, isPySpace c = false) (hNc : ∀ c ∈ N, isPySpace c = false) :
    pyStrip (lp ++ ' ' :: (E ++ ' ' :: N)) =
      (lp ++ [' ']).dropWhile isPySpace ++ (E ++ ' ' :: N) := by
  obtain ⟨eh, et, rfl⟩ := List.exists_cons_of_ne_nil hE
  have hstep : (lp ++ ' ' :: (eh :: et ++ ' ' :: N)).dropWhile isPySpace
      = (lp ++ [' ']).dropWhile isPySpace ++ (eh :: et ++ ' ' :: N) := by
    have harr : lp ++ ' ' :: (eh :: et ++ ' ' :: N)
        = (lp ++ [' ']) ++ eh :: (et ++ ' ' :: N) := by simp
    rw [harr, dropWhile_append_cons _ _ (hEc eh (by simp))]
    simp
  rcases List.eq_nil_or_concat N with rfl | ⟨nl, c, rfl⟩
  · exact absurd rfl hN
  unfold pyStrip
  rw [hstep]
  have hc : isPySpace c = false := hNc c (by simp [List.concat_eq_append])
  have hrev : ((lp ++ [' ']).dropWhile isPySpace ++ (eh :: et ++ ' ' :: nl.concat c)).reverse
      = c :: ((lp ++ [' ']).dropWhile isPySpace ++ (eh :: et ++ ' ' :: nl)).reverse := by
    simp [List.concat_eq_append]
  rw [hrev, List.dropWhile_cons, hc]
  simp

lemma pyStrip_shape_length (lp : List Char) {E N : List Char} (hE : E ≠ []) (hN : N ≠ [])
    (hEc : ∀ c ∈ E, isPySpace c = false) (hNc : ∀ c ∈ N, isPySpace c = false) :
    (pyStrip (lp ++ ' ' :: (E ++ ' ' :: N))).length =
      ((lp ++ [' ']).dropWhile isPySpace).length + E.length + 1 + N.length := by
  rw [pyStrip_shape lp hE hN hEc hNc]
  simp
  omega

lemma pyStrip_two_spaces_length (lp : List Char) :
    (pyStrip (lp ++ [' ', ' '])).length ≤ lp.length := by
  unfold pyStrip
  by_cases h : lp.dropWhile isPySpace = []
  · have hall : (lp ++ [' ', ' ']).dropWhile isPySpace = [] := by
      rw [List.dropWhile_append]
      simp [h, isPySpace]
    rw [hall]
    simp
  · rw [dropWhile_append_left _ h]
    have hrev : (lp.dropWhile isPySpace ++ [' ', ' ']).reverse
        = ' ' :: ' ' :: (lp.dropWhile isPySpace).reverse := by simp
    rw [hrev, List.dropWhile_cons, List.dropWhile_cons]
    have hsp : isPySpace ' ' = true := rfl
    rw [if_pos hsp, if_pos hsp]
    have h1 := length_dropWhile_le isPySpace (lp.dropWhile isPySpace).reverse
    have h2 := length_dropWhile_le isPySpace lp
    simp only [List.length_reverse] at h1 ⊢
    omega

/-- Within the British National Grid extent the 100km indices satisfy
`e100k < 7` and `n100k < 13`, and for all such indices both computed
characters are uppercase letters other than 'I'; in particular they are not
whitespace, not digits and not spaces. -/
lemma lp_extent : ∀ E : Nat, E < 7 → ∀ N : Nat, N < 13 →
    isGridLetter (chr (65 + (letterIndices (E : Int) (N : Int)).1)) = true ∧
    isGridLetter (chr (65 + (letterIndices (E : Int) (N : Int)).2)) = true ∧
    isPySpace (chr (65 + (letterIndices (E : Int) (N : Int)).1)) = false ∧
    isPySpace (chr (65 + (letterIndices (E : Int) (N : Int)).2)) = false ∧
    (chr (65 + (letterIndices (E : Int) (N : Int)).1)).isDigit = false ∧
    (chr (65 + (letterIndices (E : Int) (N : Int)).2)).isDigit = false ∧
    (chr (65 + (letterIndices (E : Int) (N : Int)).1) == ' ') = false ∧
    (chr (65 + (letterIndices (E : Int) (N : Int)).2) == ' ') = false := by
  decide

/-! ### Bridging the flooring operations to natural-number arithmetic -/

lemma fdiv_coe (e k : Nat) : Int.fdiv (e : Int) (k : Int) = ((e / k : Nat) : Int) :=
  (Int.ofNat_fdiv e k).symm

lemma fmod_coe (e k : Nat) : Int.fmod (e : Int) (k : Int) = ((e % k : Nat) : Int) :=
  (Int.ofNat_fmod e k).symm

lemma figs_of_valid {mf : Int} (hv : validFigs mf) :
    (Int.fdiv mf 2).toNat = mf.toNat / 2 ∧ mf.toNat / 2 ≤ 5 := by
  obtain ⟨he, h0, h10⟩ := hv
  rw [Int.fdiv_eq_ediv mf (by norm_num)]
  omega

lemma figs_le_five {mf : Int} (hv : validFigs mf) : (Int.fdiv mf 2).toNat ≤ 5 := by
  obtain ⟨h1, h2⟩ := figs_of_valid hv
  omega

lemma fdiv_e5_coe (e : Nat) :
    Int.fdiv (e : Int) 100000 = ((e / 100000 : Nat) : Int) := by
  exact_mod_cast (Int.ofNat_fdiv e 100000).symm

lemma fmod_e5_toNat (e : Nat) :
    (Int.fmod (e : Int) 100000).toNat = e % 100000 := by
  have h : Int.fmod (e : Int) (100000 : Int) = ((e % 100000 : Nat) : Int) := by
    exact_mod_cast (Int.ofNat_fmod e 100000).symm
  omega

/-! ### The two digit groups of the output -/

lemma formatCore_eq_fc (e n mf : Int) (vf sp : Bool) :
    formatCore e n mf vf sp =
      (if sp then
        pyStrip (letter_pair (Int.fdiv e 100000) (Int.fdiv n 100000) ++
          ' ' :: ((fcGroups e n mf vf).1 ++ ' ' :: (fcGroups e n mf vf).2))
      else
        letter_pair (Int.fdiv e 100000) (Int.fdiv n 100000) ++
          (fcGroups e n mf vf).1 ++ (fcGroups e n mf vf).2) := rfl

lemma letter_pair_length (a b : Int) : (letter_pair a b).length = 2 := rfl

lemma fcGroups_false (e n mf : Int) :
    fcGroups e n mf false =
      (digitGroup e (Int.fdiv mf 2).toNat, digitGroup n (Int.fdiv mf 2).toNat) := rfl

lemma fcGroups_true (e n mf : Int) :
    fcGroups e n mf true =
      varFigsTrim (digitGroup e (Int.fdiv mf 2).toNat)
        (digitGroup n (Int.fdiv mf 2).toNat) := rfl

lemma fcGroups_chars (e n mf : Int) (vf : Bool) :
    (∀ c ∈ (fcGroups e n mf vf).1, ∃ d, d < 10 ∧ c = Nat.digitChar d) ∧
    (∀ c ∈ (fcGroups e n mf vf).2, ∃ d, d < 10 ∧ c = Nat.digitChar d) := by
  cases vf with
  | false =>
    rw [fcGroups_false]
    exact ⟨digitGroup_chars, digitGroup_chars⟩
  | true =>
    rw [fcGroups_true, varFigsTrim_eq]
    constructor
    · intro c hc
      exact digitGroup_chars c (List.take_subset _ _ hc)
    · intro c hc
      exact digitGroup_chars c (List.take_subset _ _ hc)

lemma fcGroups_not_space (e n mf : Int) (vf : Bool) :
    (∀ c ∈ (fcGroups e n mf vf).1, isPySpace c = false) ∧
    (∀ c ∈ (fcGroups e n mf vf).2, isPySpace c = false) := by
  obtain ⟨h1, h2⟩ := fcGroups_chars e n mf vf
  constructor
  · intro c hc
    obtain ⟨d, hd, rfl⟩ := h1 c hc
    exact (digitChar_props d hd).2.1
  · intro c hc
    obtain ⟨d, hd, rfl⟩ := h2 c hc
    exact (digitChar_props d hd).2.1

lemma fcGroups_true_lengths (e n mf : Int) (hv : validFigs mf) :
    (fcGroups e n mf true).1.length =
      (Int.fdiv mf 2).toNat -
        min (tzCount (digitGroup e (Int.fdiv mf 2).toNat))
            (tzCount (digitGroup n (Int.fdiv mf 2).toNat)) ∧
    (fcGroups e n mf true).2.length =
      (Int.fdiv mf 2).toNat -
        min (tzCount (digitGroup e (Int.fdiv mf 2).toNat))
            (tzCount (digitGroup n (Int.fdiv mf 2).toNat)) := by
  have h5 := figs_le_five hv
  rw [fcGroups_true, varFigsTrim_eq]
  rw [digitGroup_length e h5, digitGroup_length n h5]
  constructor
  · rw [List.length_take, digitGroup_length e h5]
    omega
  · rw [List.length_take, digitGroup_length n h5]
    omega

lemma digitGroup_zero (x : Int) : digitGroup x 0 = [] := by
  simp [digitGroup]

lemma fcGroups_zero (e n : Int) (vf : Bool) : fcGroups e n 0 vf = ([], []) := by
  have h0 : (Int.fdiv (0 : Int) 2).toNat = 0 := rfl
  cases vf with
  | false =>
    rw [fcGroups_false, h0, digitGroup_zero, digitGroup_zero]
  | true =>
    rw [fcGroups_true, h0, digitGroup_zero, digitGroup_zero, varFigsTrim_eq]
    simp

lemma fcGroups_len_eq (e n mf : Int) (vf : Bool) (hv : validFigs mf) :
    (fcGroups e n mf vf).1.length = (fcGroups e n mf vf).2.length := by
  have h5 := figs_le_five hv
  cases vf with
  | false =>
    rw [fcGroups_false]
    rw [digitGroup_length e h5, digitGroup_length n h5]
  | true =>
    obtain ⟨h1, h2⟩ := fcGroups_true_lengths e n mf hv
    rw [h1, h2]

lemma pyStrip_letters_two_spaces {a b : Char} (ha : isPySpace a = false)
    (hb : isPySpace b = false) :
    pyStrip ([a, b] ++ [' ', ' ']) = [a, b] := by
  have hsp : isPySpace ' ' = true := rfl
  unfold pyStrip
  rw [show ([a, b] ++ [' ', ' ']) = a :: (b :: ' ' :: ' ' :: []) from rfl]
  rw [List.dropWhile_cons, ha]
  simp only [Bool.false_eq_true, if_false, List.reverse_cons, List.reverse_nil]
  rw [show ([] ++ [' '] ++ [' '] ++ [b] ++ [a]) = ' ' :: ' ' :: b :: a :: [] from rfl]
  rw [List.dropWhile_cons, hsp, List.dropWhile_cons, hsp, List.dropWhile_cons, hb]
  simp

lemma filter_dropWhile_pySpace (p : Char → Bool)
    (hp : ∀ c, isPySpace c = true → p c = false) (l : List Char) :
    (l.dropWhile isPySpace).filter p = l.filter p := by
  conv_rhs => rw [← List.takeWhile_append_dropWhile (p := isPySpace) (l := l)]
  rw [List.filter_append]
  have hnil : (l.takeWhile isPySpace).filter p = [] := by
    rw [List.filter_eq_nil_iff]
    intro a ha
    have hmem := List.mem_takeWhile_imp ha
    simp [hp a hmem]
  rw [hnil]
  simp

lemma filter_pyStrip (p : Char → Bool) (s : List Char)
    (hp : ∀ c, isPySpace c = true → p c = false) :
    (pyStrip s).filter p = s.filter p := by
  unfold pyStrip
  rw [List.filter_reverse, filter_dropWhile_pySpace p hp, List.filter_reverse,
    filter_dropWhile_pySpace p hp, List.reverse_reverse]

lemma formatCore_spaced_eq (e n mf : Int) (vf : Bool) :
    formatCore e n mf vf true =
      pyStrip (letter_pair (Int.fdiv e 100000) (Int.fdiv n 100000) ++
        ' ' :: ((fcGroups e n mf vf).1 ++ ' ' :: (fcGroups e n mf vf).2)) := rfl

lemma formatCore_unspaced_eq (e n mf : Int) (vf : Bool) :
    formatCore e n mf vf false =
      letter_pair (Int.fdiv e 100000) (Int.fdiv n 100000) ++
        (fcGroups e n mf vf).1 ++ (fcGroups e n mf vf).2 := rfl

lemma formatCore_zero (e n : Int) (vf sp : Bool)
    (h1 : isPySpace (chr (65 +
      (letterIndices (Int.fdiv e 100000) (Int.fdiv n 100000)).1)) = false)
    (h2 : isPySpace (chr (65 +
      (letterIndices (Int.fdiv e 100000) (Int.fdiv n 100000)).2)) = false) :
    formatCore e n 0 vf sp =
      letter_pair (Int.fdiv e 100000) (Int.fdiv n 100000) := by
  cases sp with
  | false =>
    rw [formatCore_unspaced_eq, fcGroups_zero]
    simp
  | true =>
    rw [formatCore_spaced_eq, fcGroups_zero]
    rw [show (letter_pair (Int.fdiv e 100000) (Int.fdiv n 100000) ++
      ' ' :: (([] : List Char) ++ ' ' :: ([] : List Char))) =
      ([chr (65 + (letterIndices (Int.fdiv e 100000) (Int.fdiv n 100000)).1),
        chr (65 + (letterIndices (Int.fdiv e 100000) (Int.fdiv n 100000)).2)] ++
        [' ', ' ']) from rfl]
    rw [pyStrip_letters_two_spaces h1 h2]
    rfl

lemma pySpace_not_digit : ∀ c : Char, isPySpace c = true → Char.isDigit c = false := by
  intro c hc
  simp only [isPySpace, Bool.or_eq_true, beq_iff_eq] at hc
  rcases hc with ((((rfl | rfl) | rfl) | rfl) | rfl) | rfl <;> rfl

lemma spaced_length_le {lp E N Ep Np : List Char}
    (hEc : ∀ c ∈ E, isPySpace c = false) (hNc : ∀ c ∈ N, isPySpace c = false)
    (hEpc : ∀ c ∈ Ep, isPySpace c = false) (hNpc : ∀ c ∈ Np, isPySpace c = false)
    (hEN : E.length = N.length) (hEpNp : Ep.length = Np.length)
    (hle : Ep.length ≤ E.length) (hlp : lp.length = 2) :
    (pyStrip (lp ++ ' ' :: (Ep ++ ' ' :: Np))).length ≤
      (pyStrip (lp ++ ' ' :: (E ++ ' ' :: N))).length := by
  by_cases hE : E = []
  · have hN : N = [] := by
      rw [hE] at hEN
      exact List.length_eq_zero.mp (by simpa using hEN.symm)
    have hEp : Ep = [] := by
      rw [hE] at hle
      exact List.length_eq_zero.mp (by simpa using hle)
    have hNp : Np = [] := by
      rw [hEp] at hEpNp
      exact List.length_eq_zero.mp (by simpa using hEpNp.symm)
    rw [hE, hN, hEp, hNp]
  · have hN : N ≠ [] := by
      intro h
      apply hE
      rw [h] at hEN
      exact List.length_eq_zero.mp (by simpa using hEN)
    by_cases hEp : Ep = []
    · have hNp : Np = [] := by
        rw [hEp] at hEpNp
        exact List.length_eq_zero.mp (by simpa using hEpNp.symm)
      rw [hEp, hNp,
        show lp ++ ' ' :: (([] : List Char) ++ ' ' :: ([] : List Char)) =
          lp ++ [' ', ' '] from by simp]
      have h1 := pyStrip_two_spaces_length lp
      have h2 := pyStrip_shape_length lp hE hN hEc hNc
      have h3 : 0 < E.length := List.length_pos.mpr hE
      have h4 : 0 < N.length := List.length_pos.mpr hN
      omega
    · have hNp : Np ≠ [] := by
        intro h
        apply hEp
        rw [h] at hEpNp
        exact List.length_eq_zero.mp (by simpa using hEpNp)
      rw [pyStrip_shape_length lp hEp hNp hEpc hNpc,
        pyStrip_shape_length lp hE hN hEc hNc]
      omega

lemma dropWhile_letter_pair_space (A B : Int)
    (h1 : isPySpace (chr (65 + (letterIndices A B).1)) = false) :
    (letter_pair A B ++ [' ']).dropWhile isPySpace = letter_pair A B ++ [' '] := by
  show (chr (65 + (letterIndices A B).1) ::
    (chr (65 + (letterIndices A B).2) :: [' '])).dropWhile isPySpace = _
  rw [List.dropWhile_cons, h1]
  simp [letter_pair]

lemma filter_letter_pair (P : Char → Bool) (A B : Int)
    (h1 : P (chr (65 + (letterIndices A B).1)) = true)
    (h2 : P (chr (65 + (letterIndices A B).2)) = true) :
    (letter_pair A B).filter P = letter_pair A B := by
  simp [letter_pair, List.filter_cons, h1, h2]

lemma filter_letter_pair_nil (P : Char → Bool) (A B : Int)
    (h1 : P (chr (65 + (letterIndices A B).1)) = false)
    (h2 : P (chr (65 + (letterIndices A B).2)) = false) :
    (letter_pair A B).filter P = [] := by
  simp [letter_pair, List.filter_cons, h1, h2]

/-! ## Claim theorems -/

/-- C1: for every non-negative easting `e` and northing `n`, the letter pair
is obtained from `e100k = floor(e / 100000)` and `n100k = floor(n / 100000)`
by `l1 = (19 - n100k) - (19 - n100k) mod 5 + floor((e100k + 10) / 5)` and
`l2 = ((19 - n100k) * 5) mod 25 + e100k mod 5`, incrementing each index
strictly greater than 7 by one (the skip-I correction), and taking the
characters at code points `'A' + l1` and `'A' + l2`. -/
theorem letter_pair_formula (e n : Nat) :
    letter_pair (Int.fdiv (e : Int) 100000) (Int.fdiv (n : Int) 100000) =
      (let e100k : Nat := e / 100000
       let n100k : Nat := n / 100000
       let i1 : Int := (19 - (n100k : Int)) - Int.fmod (19 - (n100k : Int)) 5
         + (((e100k + 10) / 5 : Nat) : Int)
       let i2 : Int := Int.fmod ((19 - (n100k : Int)) * 5) 25 + ((e100k % 5 : Nat) : Int)
       let j1 : Int := if 7 < i1 then i1 + 1 else i1
       let j2 : Int := if 7 < i2 then i2 + 1 else i2
       [Char.ofNat (65 + j1).toNat, Char.ofNat (65 + j2).toNat]) := by
  have h1 : Int.fdiv (e : Int) 100000 = ((e / 100000 : Nat) : Int) := fdiv_e5_coe e
  have h2 : Int.fdiv (n : Int) 100000 = ((n / 100000 : Nat) : Int) := fdiv_e5_coe n
  have h3 : Int.fdiv (((e / 100000 : Nat) : Int) + 10) 5 =
      (((e / 100000 + 10) / 5 : Nat) : Int) := by
    have hc : ((e / 100000 : Nat) : Int) + 10 = (((e / 100000 + 10 : Nat)) : Int) := by
      push_cast
      ring
    rw [hc]
    exact_mod_cast (Int.ofNat_fdiv (e / 100000 + 10) 5).symm
  have h4 : Int.fmod ((e / 100000 : Nat) : Int) 5 = ((e / 100000 % 5 : Nat) : Int) := by
    exact_mod_cast (Int.ofNat_fmod (e / 100000) 5).symm
  simp only [letter_pair, letterIndices, chr, h1, h2, h3, h4]

/-- C3: whenever `max_figs` is odd, negative or greater than 10 the function
signals the `InvalidArgument` eval error and produces no grid-reference
string (the result is the error outcome, not a `result`). -/
theorem invalid_max_figs_error (geom : Option (Int × Int)) (mf : Int)
    (vf sp : Bool) (h : mf % 2 ≠ 0 ∨ mf < 0 ∨ mf > 10) :
    st_gridref geom mf vf sp = EvalResult.evalError errMsg := by
  have hf : Int.fmod mf 2 = mf % 2 := Int.fmod_eq_emod mf (by norm_num)
  have hcond : Int.fmod mf 2 ≠ 0 ∨ mf < 0 ∨ mf > 10 := by
    rw [hf]
    exact h
  unfold st_gridref
  rw [if_pos hcond]

/-- C3 witness: `max_figs = 5` yields the error signal and no string. -/
theorem invalid_max_figs_error_witness :
    st_gridref none 5 false false = EvalResult.evalError errMsg :=
  invalid_max_figs_error none 5 false false (by decide)

/-- C4: for easting 532100 and northing 181300 the 100km indices are 5 and 1,
the letters are "TQ", the residuals are 32100 and 81300, and the outputs for
`max_figs` 6, 4 and 0 are "TQ321813", "TQ3281" and "TQ". -/
theorem tq_examples :
    Int.fdiv (532100 : Int) 100000 = 5 ∧ Int.fdiv (181300 : Int) 100000 = 1 ∧
    letter_pair 5 1 = ['T', 'Q'] ∧
    Int.fmod (532100 : Int) 100000 = 32100 ∧
    Int.fmod (181300 : Int) 100000 = 81300 ∧
    st_gridref (some (532100, 181300)) 6 false false =
      EvalResult.result ['T', 'Q', '3', '2', '1', '8', '1', '3'] ∧
    st_gridref (some (532100, 181300)) 4 false false =
      EvalResult.result ['T', 'Q', '3', '2', '8', '1'] ∧
    st_gridref (some (532100, 181300)) 0 false false =
      EvalResult.result ['T', 'Q'] := by
  decide

/-- C10: with a valid `max_figs`, an absent or null geometry gives no result
and no error; with an invalid `max_figs` the error is signalled even though
the geometry is null, because validation precedes the null check. -/
theorem null_geometry_no_result (mf : Int) (vf sp : Bool) :
    (validFigs mf → st_gridref none mf vf sp = EvalResult.noResult) ∧
    (mf % 2 ≠ 0 ∨ mf < 0 ∨ mf > 10 →
      st_gridref none mf vf sp = EvalResult.evalError errMsg) := by
  have hf : Int.fmod mf 2 = mf % 2 := Int.fmod_eq_emod mf (by norm_num)
  constructor
  · intro hv
    obtain ⟨he, h0, h10⟩ := hv
    have hcond : ¬ (Int.fmod mf 2 ≠ 0 ∨ mf < 0 ∨ mf > 10) := by
      rw [hf]
      omega
    unfold st_gridref
    rw [if_neg hcond]
  · intro h
    have hcond : Int.fmod mf 2 ≠ 0 ∨ mf < 0 ∨ mf > 10 := by
      rw [hf]
      exact h
    unfold st_gridref
    rw [if_pos hcond]

/-- C10 witness: valid `max_figs = 6` with null geometry returns no result;
invalid `max_figs = 5` with null geometry still errors. -/
theorem null_geometry_no_result_witness :
    st_gridref none 6 false false = EvalResult.noResult ∧
    st_gridref none 5 false false = EvalResult.evalError errMsg :=
  ⟨(null_geometry_no_result 6 false false).1 (by exact ⟨by decide, by decide, by decide⟩),
   (null_geometry_no_result 5 false false).2 (by decide)⟩

/-- C7 counterexample: at easting 0, northing 5400000 (valid `max_figs = 0`,
`var_figs = false`) the first letter is the character at code point
`'A' - 33`, a space; `strip()` removes it from the spaced output, so deleting
the space characters of the `include_spaces = true` output does not
reproduce the `include_spaces = false` output. -/
theorem spaces_removal_counterexample :
    (formatCore 0 5400000 0 false true).filter (fun c => !(c == ' ')) ≠
      formatCore 0 5400000 0 false false ∧
    formatCore 0 5400000 0 false true = ['A'] ∧
    formatCore 0 5400000 0 false false = [' ', 'A'] := by
  decide

/-- C8 counterexample: at easting 0, northing 5400000 with `max_figs = 0` and
`include_spaces = true` the returned string is "A", a single character, and
not the two-character 100km letter pair (which here is " A" and itself
contains a space). -/
theorem max_figs_zero_counterexample :
    st_gridref (some (0, 5400000)) 0 false true = EvalResult.result ['A'] ∧
    letter_pair (Int.fdiv (0 : Int) 100000) (Int.fdiv (5400000 : Int) 100000) =
      [' ', 'A'] ∧
    (['A'] : List Char) ≠ [' ', 'A'] := by
  decide

/-- C9 counterexample: at easting 0, northing 2500000 the first letter is the
character at code point `'A' - 8`, the digit '9', so the output "9V" for
`max_figs = 0` contains exactly one digit — an odd total. -/
theorem digit_parity_counterexample :
    st_gridref (some (0, 2500000)) 0 false false = EvalResult.result ['9', 'V'] ∧
    ((formatCore 0 2500000 0 false false).filter Char.isDigit).length % 2 = 1 := by
  decide

/-- C2: for non-negative coordinates and a valid even `max_figs`, each digit
group is the truncation (never a rounding) of the five-digit zero-padded
decimal representation of the residual `x mod 100000` to its first
`max_figs / 2` most-significant digits. -/
theorem digit_groups_truncate (e n mf : Nat) (h2 : mf % 2 = 0) (h10 : mf ≤ 10) :
    formatCore (e : Int) (n : Int) (mf : Int) false false =
      letter_pair (Int.fdiv (e : Int) 100000) (Int.fdiv (n : Int) 100000)
        ++ (digits5 (e % 100000)).take (mf / 2)
        ++ (digits5 (n % 100000)).take (mf / 2) := by
  have hfig : (Int.fdiv (mf : Int) 2).toNat = mf / 2 := by
    rw [Int.fdiv_eq_ediv (mf : Int) (by norm_num)]
    omega
  have hE : digitGroup (e : Int) (mf / 2) = (digits5 (e % 100000)).take (mf / 2) := by
    rw [digitGroup_eq, fmod_e5_toNat]
  have hN : digitGroup (n : Int) (mf / 2) = (digits5 (n % 100000)).take (mf / 2) := by
    rw [digitGroup_eq, fmod_e5_toNat]
  rw [formatCore_eq_fc, if_neg (by simp), fcGroups_false, hfig, hE, hN]

/-- C2 witness: easting 532100 with `max_figs = 4` keeps the residual's two
most-significant digits "32" by truncation. -/
theorem digit_groups_truncate_witness :
    formatCore (532100 : Int) 181300 4 false false =
      letter_pair (Int.fdiv (532100 : Int) 100000) (Int.fdiv (181300 : Int) 100000)
        ++ (digits5 (532100 % 100000)).take (4 / 2)
        ++ (digits5 (181300 % 100000)).take (4 / 2) :=
  digit_groups_truncate 532100 181300 4 (by decide) (by decide)

/-- C6: for coordinates within the British National Grid extent, the
six-figure output with no trimming and no spaces is two uppercase letters,
neither of them 'I', followed by exactly six decimal digits. -/
theorem pattern_six_fig (e n : Nat) (he : e < 700000) (hn : n < 1300000) :
    ∃ a b ds, formatCore (e : Int) (n : Int) 6 false false = a :: b :: ds ∧
      isGridLetter a = true ∧ isGridLetter b = true ∧
      ds.length = 6 ∧ ∀ c ∈ ds, c.isDigit = true := by
  have hE7 : e / 100000 < 7 := by omega
  have hN13 : n / 100000 < 13 := by omega
  obtain ⟨hg1, hg2, _, _, _, _, _, _⟩ := lp_extent (e / 100000) hE7 (n / 100000) hN13
  have hfig : (Int.fdiv (6 : Int) 2).toNat = 3 := rfl
  refine ⟨chr (65 + (letterIndices ((e / 100000 : Nat) : Int) ((n / 100000 : Nat) : Int)).1),
    chr (65 + (letterIndices ((e / 100000 : Nat) : Int) ((n / 100000 : Nat) : Int)).2),
    digitGroup (e : Int) 3 ++ digitGroup (n : Int) 3, ?_, hg1, hg2, ?_, ?_⟩
  · rw [formatCore_eq_fc, if_neg (by simp), fcGroups_false, hfig,
      fdiv_e5_coe e, fdiv_e5_coe n]
    simp [letter_pair]
  · rw [List.length_append, digitGroup_length _ (by omega), digitGroup_length _ (by omega)]
  · intro c hc
    rcases List.mem_append.mp hc with h | h
    · exact digitGroup_isDigit c h
    · exact digitGroup_isDigit c h

/-- C6 witness: the pattern at easting 532100, northing 181300. -/
theorem pattern_six_fig_witness :
    (532100 < 700000 ∧ 181300 < 1300000) ∧
    (∃ a b ds, formatCore (532100 : Int) 181300 6 false false = a :: b :: ds ∧
      isGridLetter a = true ∧ isGridLetter b = true ∧
      ds.length = 6 ∧ ∀ c ∈ ds, c.isDigit = true) :=
  ⟨⟨by decide, by decide⟩, pattern_six_fig 532100 181300 (by decide) (by decide)⟩

/-- C8 as amended: for coordinates within the British National Grid extent
(where the two computed letters really are letters), `max_figs = 0` returns
exactly the two-letter 100km square code for every combination of `var_figs`
and `include_spaces`, and that code contains no digits and no spaces. -/
theorem max_figs_zero_extent (e n : Nat) (he : e < 700000) (hn : n < 1300000)
    (vf sp : Bool) :
    ∃ a b, st_gridref (some ((e : Int), (n : Int))) 0 vf sp =
        EvalResult.result [a, b] ∧
      [a, b] = letter_pair (Int.fdiv (e : Int) 100000) (Int.fdiv (n : Int) 100000) ∧
      isGridLetter a = true ∧ isGridLetter b = true ∧
      a.isDigit = false ∧ b.isDigit = false ∧
      (a == ' ') = false ∧ (b == ' ') = false := by
  have hE7 : e / 100000 < 7 := by omega
  have hN13 : n / 100000 < 13 := by omega
  obtain ⟨hg1, hg2, hs1, hs2, hd1, hd2, hsp1, hsp2⟩ :=
    lp_extent (e / 100000) hE7 (n / 100000) hN13
  have hval : ¬ (Int.fmod (0 : Int) 2 ≠ 0 ∨ (0 : Int) < 0 ∨ (0 : Int) > 10) := by decide
  have hcore : formatCore (e : Int) (n : Int) 0 vf sp =
      letter_pair (Int.fdiv (e : Int) 100000) (Int.fdiv (n : Int) 100000) := by
    rw [formatCore_eq_fc, fcGroups_zero]
    cases sp with
    | false => simp
    | true =>
      simp only [if_true]
      rw [fdiv_e5_coe e, fdiv_e5_coe n]
      rw [show (letter_pair ((e / 100000 : Nat) : Int) ((n / 100000 : Nat) : Int) ++
        ' ' :: (([] : List Char) ++ ' ' :: ([] : List Char))) =
        ([chr (65 + (letterIndices ((e / 100000 : Nat) : Int) ((n / 100000 : Nat) : Int)).1),
          chr (65 + (letterIndices ((e / 100000 : Nat) : Int) ((n / 100000 : Nat) : Int)).2)] ++
          [' ', ' ']) from rfl]
      rw [pyStrip_letters_two_spaces hs1 hs2]
      rfl
  refine ⟨chr (65 + (letterIndices ((e / 100000 : Nat) : Int) ((n / 100000 : Nat) : Int)).1),
    chr (65 + (letterIndices ((e / 100000 : Nat) : Int) ((n / 100000 : Nat) : Int)).2),
    ?_, ?_, hg1, hg2, hd1, hd2, hsp1, hsp2⟩
  · unfold st_gridref
    rw [if_neg hval]
    show EvalResult.result (formatCore (e : Int) (n : Int) 0 vf sp) = _
    rw [hcore, fdiv_e5_coe e, fdiv_e5_coe n]
    rfl
  · rw [fdiv_e5_coe e, fdiv_e5_coe n]
    rfl

/-- C8 witness: at easting 532100, northing 181300 with `max_figs = 0`,
`var_figs = true`, `include_spaces = true`. -/
theorem max_figs_zero_extent_witness :
    (532100 < 700000 ∧ 181300 < 1300000) ∧
    (∃ a b, st_gridref (some ((532100 : Int), (181300 : Int))) 0 true true =
        EvalResult.result [a, b] ∧
      [a, b] = letter_pair (Int.fdiv (532100 : Int) 100000)
        (Int.fdiv (181300 : Int) 100000) ∧
      isGridLetter a = true ∧ isGridLetter b = true ∧
      a.isDigit = false ∧ b.isDigit = false ∧
      (a == ' ') = false ∧ (b == ' ') = false) :=
  ⟨⟨by decide, by decide⟩, max_figs_zero_extent 532100 181300 (by decide) (by decide) true true⟩

/-- C5: for any coordinates and any valid `max_figs`, with either spacing
option, the `var_figs = true` output is never longer than the
`var_figs = false` output, and the trimming removes exactly
`min(tzCount easting-group, tzCount northing-group)` trailing characters
from each of the two truncated digit groups. -/
theorem var_figs_never_longer (e n mf : Int) (sp : Bool) (hv : validFigs mf) :
    (formatCore e n mf true sp).length ≤ (formatCore e n mf false sp).length ∧
    varFigsTrim (digitGroup e (Int.fdiv mf 2).toNat)
        (digitGroup n (Int.fdiv mf 2).toNat) =
      ((digitGroup e (Int.fdiv mf 2).toNat).take
          ((digitGroup e (Int.fdiv mf 2).toNat).length -
            min (tzCount (digitGroup e (Int.fdiv mf 2).toNat))
                (tzCount (digitGroup n (Int.fdiv mf 2).toNat))),
       (digitGroup n (Int.fdiv mf 2).toNat).take
          ((digitGroup n (Int.fdiv mf 2).toNat).length -
            min (tzCount (digitGroup e (Int.fdiv mf 2).toNat))
                (tzCount (digitGroup n (Int.fdiv mf 2).toNat)))) := by
  refine ⟨?_, varFigsTrim_eq _ _⟩
  have h5 := figs_le_five hv
  have hF1 : (fcGroups e n mf false).1.length = (Int.fdiv mf 2).toNat := by
    rw [fcGroups_false]
    exact digitGroup_length _ h5
  have hF2 : (fcGroups e n mf false).2.length = (Int.fdiv mf 2).toNat := by
    rw [fcGroups_false]
    exact digitGroup_length _ h5
  obtain ⟨hT1, hT2⟩ := fcGroups_true_lengths e n mf hv
  cases sp with
  | false =>
    rw [formatCore_unspaced_eq, formatCore_unspaced_eq]
    simp only [List.length_append]
    omega
  | true =>
    rw [formatCore_spaced_eq, formatCore_spaced_eq]
    apply spaced_length_le
    · exact (fcGroups_not_space e n mf false).1
    · exact (fcGroups_not_space e n mf false).2
    · exact (fcGroups_not_space e n mf true).1
    · exact (fcGroups_not_space e n mf true).2
    · exact fcGroups_len_eq e n mf false hv
    · exact fcGroups_len_eq e n mf true hv
    · omega
    · exact letter_pair_length _ _

/-- C5 witness: at easting 532100, northing 181300, `max_figs = 6`,
`include_spaces = false`. -/
theorem var_figs_never_longer_witness :
    (formatCore 532100 181300 6 true false).length ≤
      (formatCore 532100 181300 6 false false).length ∧
    varFigsTrim (digitGroup 532100 (Int.fdiv 6 2).toNat)
        (digitGroup 181300 (Int.fdiv 6 2).toNat) =
      ((digitGroup 532100 (Int.fdiv 6 2).toNat).take
          ((digitGroup 532100 (Int.fdiv 6 2).toNat).length -
            min (tzCount (digitGroup 532100 (Int.fdiv 6 2).toNat))
                (tzCount (digitGroup 181300 (Int.fdiv 6 2).toNat))),
       (digitGroup 181300 (Int.fdiv 6 2).toNat).take
          ((digitGroup 181300 (Int.fdiv 6 2).toNat).length -
            min (tzCount (digitGroup 532100 (Int.fdiv 6 2).toNat))
                (tzCount (digitGroup 181300 (Int.fdiv 6 2).toNat)))) :=
  var_figs_never_longer 532100 181300 6 false ⟨by decide, by decide, by decide⟩

/-- C9 as amended: the two digit groups in the output always have equal
length — `max_figs / 2` minus the common trimmed count when `var_figs` is
set — and, for coordinates within the British National Grid extent (so that
the letter pair contains no digit character), the total number of digit
characters in the output is even. -/
theorem group_lengths_equal (e n : Nat) (mf : Int) (vf sp : Bool) (hv : validFigs mf) :
    (fcGroups (e : Int) (n : Int) mf vf).1.length =
      (fcGroups (e : Int) (n : Int) mf vf).2.length ∧
    (fcGroups (e : Int) (n : Int) mf vf).1.length =
      (Int.fdiv mf 2).toNat -
        (if vf then
          min (tzCount (digitGroup (e : Int) (Int.fdiv mf 2).toNat))
              (tzCount (digitGroup (n : Int) (Int.fdiv mf 2).toNat))
        else 0) ∧
    (e < 700000 → n < 1300000 →
      ((formatCore (e : Int) (n : Int) mf vf sp).filter Char.isDigit).length % 2
        = 0) := by
  have h5 := figs_le_five hv
  refine ⟨fcGroups_len_eq _ _ _ _ hv, ?_, ?_⟩
  · cases vf with
    | false =>
      have hF1 : (fcGroups (e : Int) (n : Int) mf false).1.length =
          (Int.fdiv mf 2).toNat := by
        rw [fcGroups_false]
        exact digitGroup_length _ h5
      simpa using hF1
    | true =>
      have h := (fcGroups_true_lengths (e : Int) (n : Int) mf hv).1
      simpa using h
  · intro he hn
    obtain ⟨_, _, hs1, hs2, hd1, hd2, _, _⟩ :=
      lp_extent (e / 100000) (by omega) (n / 100000) (by omega)
    have hd1' : (chr (65 + (letterIndices (Int.fdiv (e : Int) 100000)
        (Int.fdiv (n : Int) 100000)).1)).isDigit = false := by
      rw [fdiv_e5_coe e, fdiv_e5_coe n]
      exact hd1
    have hd2' : (chr (65 + (letterIndices (Int.fdiv (e : Int) 100000)
        (Int.fdiv (n : Int) 100000)).2)).isDigit = false := by
      rw [fdiv_e5_coe e, fdiv_e5_coe n]
      exact hd2
    have hlp : (letter_pair (Int.fdiv (e : Int) 100000)
        (Int.fdiv (n : Int) 100000)).filter Char.isDigit = [] :=
      filter_letter_pair_nil Char.isDigit _ _ hd1' hd2'
    have hg1f : (fcGroups (e : Int) (n : Int) mf vf).1.filter Char.isDigit =
        (fcGroups (e : Int) (n : Int) mf vf).1 := by
      rw [List.filter_eq_self]
      intro c hc
      obtain ⟨d, hd, rfl⟩ := (fcGroups_chars (e : Int) (n : Int) mf vf).1 c hc
      exact (digitChar_props d hd).1
    have hg2f : (fcGroups (e : Int) (n : Int) mf vf).2.filter Char.isDigit =
        (fcGroups (e : Int) (n : Int) mf vf).2 := by
      rw [List.filter_eq_self]
      intro c hc
      obtain ⟨d, hd, rfl⟩ := (fcGroups_chars (e : Int) (n : Int) mf vf).2 c hc
      exact (digitChar_props d hd).1
    have hlen := fcGroups_len_eq (e : Int) (n : Int) mf vf hv
    have hspd : Char.isDigit ' ' = false := rfl
    cases sp with
    | false =>
      rw [formatCore_unspaced_eq, List.filter_append, List.filter_append,
        hlp, hg1f, hg2f]
      simp only [List.nil_append, List.length_append]
      omega
    | true =>
      rw [formatCore_spaced_eq, filter_pyStrip Char.isDigit _ pySpace_not_digit,
        List.filter_append, hlp, List.filter_cons, hspd]
      simp only [Bool.false_eq_true, if_false]
      rw [List.filter_append, hg1f, List.filter_cons, hspd]
      simp only [Bool.false_eq_true, if_false]
      rw [hg2f]
      simp only [List.nil_append, List.length_append]
      omega

/-- C9 witness: at easting 532100, northing 181300, `max_figs = 6`,
`var_figs = true`, `include_spaces = false`. -/
theorem group_lengths_equal_witness :
    (fcGroups (532100 : Int) (181300 : Int) 6 true).1.length =
      (fcGroups (532100 : Int) (181300 : Int) 6 true).2.length ∧
    (fcGroups (532100 : Int) (181300 : Int) 6 true).1.length =
      (Int.fdiv 6 2).toNat -
        (if true then
          min (tzCount (digitGroup (532100 : Int) (Int.fdiv 6 2).toNat))
              (tzCount (digitGroup (181300 : Int) (Int.fdiv 6 2).toNat))
        else 0) ∧
    (532100 < 700000 → 181300 < 1300000 →
      ((formatCore (532100 : Int) (181300 : Int) 6 true false).filter
        Char.isDigit).length % 2 = 0) :=
  group_lengths_equal 532100 181300 6 true false ⟨by decide, by decide, by decide⟩

/-- C7 as amended: for coordinates within the British National Grid extent
(so that the letter pair contains no whitespace for `strip()` to remove),
deleting the space characters of the `include_spaces = true` output yields
exactly the `include_spaces = false` output, and at `max_figs = 0` the
spaced output is just the letter pair. -/
theorem spaces_removal_extent (e n : Nat) (he : e < 700000) (hn : n < 1300000)
    (mf : Int) (vf : Bool) (hv : validFigs mf) :
    (formatCore (e : Int) (n : Int) mf vf true).filter (fun c => !(c == ' ')) =
      formatCore (e : Int) (n : Int) mf vf false ∧
    formatCore (e : Int) (n : Int) 0 vf true =
      letter_pair (Int.fdiv (e : Int) 100000) (Int.fdiv (n : Int) 100000) := by
  obtain ⟨_, _, hs1, hs2, _, _, hq1, hq2⟩ :=
    lp_extent (e / 100000) (by omega) (n / 100000) (by omega)
  have hs1' : isPySpace (chr (65 + (letterIndices (Int.fdiv (e : Int) 100000)
      (Int.fdiv (n : Int) 100000)).1)) = false := by
    rw [fdiv_e5_coe e, fdiv_e5_coe n]
    exact hs1
  have hs2' : isPySpace (chr (65 + (letterIndices (Int.fdiv (e : Int) 100000)
      (Int.fdiv (n : Int) 100000)).2)) = false := by
    rw [fdiv_e5_coe e, fdiv_e5_coe n]
    exact hs2
  have hq1' : ((fun c => !(c == ' ')) (chr (65 + (letterIndices
      (Int.fdiv (e : Int) 100000) (Int.fdiv (n : Int) 100000)).1))) = true := by
    rw [fdiv_e5_coe e, fdiv_e5_coe n]
    simp only [Bool.not_eq_true']
    exact hq1
  have hq2' : ((fun c => !(c == ' ')) (chr (65 + (letterIndices
      (Int.fdiv (e : Int) 100000) (Int.fdiv (n : Int) 100000)).2))) = true := by
    rw [fdiv_e5_coe e, fdiv_e5_coe n]
    simp only [Bool.not_eq_true']
    exact hq2
  refine ⟨?_, formatCore_zero _ _ vf true hs1' hs2'⟩
  have hlpf : (letter_pair (Int.fdiv (e : Int) 100000)
      (Int.fdiv (n : Int) 100000)).filter (fun c => !(c == ' ')) =
      letter_pair (Int.fdiv (e : Int) 100000) (Int.fdiv (n : Int) 100000) :=
    filter_letter_pair _ _ _ hq1' hq2'
  have hlen := fcGroups_len_eq (e : Int) (n : Int) mf vf hv
  have hg1q : ∀ c ∈ (fcGroups (e : Int) (n : Int) mf vf).1,
      ((fun c => !(c == ' ')) c) = true := by
    intro c hc
    obtain ⟨d, hd, rfl⟩ := (fcGroups_chars (e : Int) (n : Int) mf vf).1 c hc
    simp only [Bool.not_eq_true']
    exact (digitChar_props d hd).2.2.1
  have hg2q : ∀ c ∈ (fcGroups (e : Int) (n : Int) mf vf).2,
      ((fun c => !(c == ' ')) c) = true := by
    intro c hc
    obtain ⟨d, hd, rfl⟩ := (fcGroups_chars (e : Int) (n : Int) mf vf).2 c hc
    simp only [Bool.not_eq_true']
    exact (digitChar_props d hd).2.2.1
  have hg1f : (fcGroups (e : Int) (n : Int) mf vf).1.filter (fun c => !(c == ' ')) =
      (fcGroups (e : Int) (n : Int) mf vf).1 := List.filter_eq_self.mpr hg1q
  have hg2f : (fcGroups (e : Int) (n : Int) mf vf).2.filter (fun c => !(c == ' ')) =
      (fcGroups (e : Int) (n : Int) mf vf).2 := List.filter_eq_self.mpr hg2q
  have hspq : ((fun c => !(c == ' ')) ' ') = false := rfl
  by_cases hg : (fcGroups (e : Int) (n : Int) mf vf).1 = []
  · have hg2 : (fcGroups (e : Int) (n : Int) mf vf).2 = [] := by
      rw [hg] at hlen
      exact List.length_eq_zero.mp (by simpa using hlen.symm)
    rw [formatCore_spaced_eq, formatCore_unspaced_eq, hg, hg2]
    rw [show (letter_pair (Int.fdiv (e : Int) 100000) (Int.fdiv (n : Int) 100000) ++
      ' ' :: (([] : List Char) ++ ' ' :: ([] : List Char))) =
      ([chr (65 + (letterIndices (Int.fdiv (e : Int) 100000)
          (Int.fdiv (n : Int) 100000)).1),
        chr (65 + (letterIndices (Int.fdiv (e : Int) 100000)
          (Int.fdiv (n : Int) 100000)).2)] ++ [' ', ' ']) from rfl]
    rw [pyStrip_letters_two_spaces hs1' hs2']
    rw [show ([chr (65 + (letterIndices (Int.fdiv (e : Int) 100000)
          (Int.fdiv (n : Int) 100000)).1),
        chr (65 + (letterIndices (Int.fdiv (e : Int) 100000)
          (Int.fdiv (n : Int) 100000)).2)] : List Char) =
      letter_pair (Int.fdiv (e : Int) 100000) (Int.fdiv (n : Int) 100000) from rfl]
    rw [hlpf]
    simp
  · have hg2 : (fcGroups (e : Int) (n : Int) mf vf).2 ≠ [] := by
      intro h
      apply hg
      rw [h] at hlen
      exact List.length_eq_zero.mp (by simpa using hlen)
    rw [formatCore_spaced_eq, formatCore_unspaced_eq]
    rw [pyStrip_shape (letter_pair (Int.fdiv (e : Int) 100000)
        (Int.fdiv (n : Int) 100000)) hg hg2
      (fcGroups_not_space (e : Int) (n : Int) mf vf).1
      (fcGroups_not_space (e : Int) (n : Int) mf vf).2]
    rw [dropWhile_letter_pair_space _ _ hs1']
    rw [List.filter_append, List.filter_append, List.filter_append, hlpf]
    have hff : (!(' ' == ' ')) = false := rfl
    simp only [List.filter_cons, List.filter_nil, hff, Bool.false_eq_true, if_false,
      List.append_nil, hg1f, hg2f, List.append_assoc]

/-- C7 witness: at easting 532100, northing 181300, `max_figs = 6`,
`var_figs = false`. -/
theorem spaces_removal_extent_witness :
    ((formatCore (532100 : Int) (181300 : Int) 6 false true).filter
        (fun c => !(c == ' ')) =
      formatCore (532100 : Int) (181300 : Int) 6 false false) ∧
    formatCore (532100 : Int) (181300 : Int) 0 false true =
      letter_pair (Int.fdiv (532100 : Int) 100000) (Int.fdiv (181300 : Int) 100000) :=
  spaces_removal_extent 532100 181300 (by decide) (by decide) 6 false
    ⟨by decide, by decide, by decide⟩

end StGridref
